import Mathlib

/-!
Verification of the Aurora Serverless v2 savings calculator
(src/aurora_serverlessv2_savings_calculator.py).

The script is sequential orchestration over exact arithmetic: inventory
collection, price resolution, utilization sampling, then a fixed cost
formula and a minimum-of-three selection. We embed the arithmetic over ℚ
(the Python source computes over floats; all constants and formulas are
exact decimal fractions, so ℚ is the faithful idealization), strings as
Lean `String` (Python string comparison is lexicographic by code point,
as is Lean's), and fallible external calls as `Option`/`Except` inputs:
`none`/`error` stands for the call raising or returning no entry, exactly
where the source catches exceptions or tests for an empty result list.
-/

namespace AuroraCalc

/-! ## Constants (lines 30-46 of the source) -/

def SAVINGS_PLAN_DISCOUNT : ℚ := 35 / 100

def HEADROOM_MULTIPLIER : ℚ := 3 / 2

def HOURS_PER_MONTH : ℚ := 730

def SECONDS_PER_MONTH : ℚ := 2628000

def ACU_PER_VCPU : ℚ := 4

def AURORA_MYSQL_MIN_VERSION : String := "3."

def AURORA_MYSQL_EXTENDED_SUPPORT : String := "2."

def AURORA_POSTGRESQL_MIN_VERSIONS : List (String × String) :=
  [("13", "13.6"), ("14", "14.3"), ("15", "15.2")]

def AURORA_POSTGRESQL_EXTENDED_SUPPORT : List Nat := [11, 12, 13]

/-- Engine families billed natively on consumption units (line 378). -/
def serverlessNativeEngines : List String := ["aurora-mysql", "aurora-postgresql"]

/-! ## Price resolution (get_aurora_serverless_pricing, lines 59-147) -/

inductive StorageType where
  | standard
  | ioOptimized
deriving DecidableEq

/-- Pricing for one (variant, engine) pair as assembled in process_region
(lines 307-321). -/
structure PricingConfig where
  acu : ℚ
  iops : ℚ
  storage : ℚ
deriving DecidableEq

/-- Embedding of get_aurora_serverless_pricing. Each of the three catalog
queries is an `Option ℚ` input: `none` when the call raised or its
PriceList came back empty (the source treats both identically — the
storage and IOPS lookups fall back to 0.0, and the ACU lookup returns all
zeros). The IOPS query is only issued for standard storage (line 99).
Returns (ACU price, IOPS price, Savings Plan ACU price, storage price). -/
def get_aurora_serverless_pricing (storage_type : StorageType)
    (storageQuery ioQuery acuQuery : Option ℚ) : ℚ × ℚ × ℚ × ℚ :=
  let price_storage := storageQuery.getD 0
  let price_iops := if storage_type = StorageType.standard then ioQuery.getD 0 else 0
  match acuQuery with
  | none => (0, 0, 0, 0)
  | some price_acu =>
      (price_acu, price_iops, price_acu * (1 - SAVINGS_PLAN_DISCOUNT), price_storage)

/-! ## Utilization sampling (lines 357-393) -/

/-- The Maximum-statistic datapoint series returned by the three
CloudWatch queries for one instance; an empty list models a query that
returned no datapoints. -/
structure Telemetry where
  cpuMax : List ℚ
  readMax : List ℚ
  writeMax : List ℚ

/-- Per-instance metric summary row (lines 365-390). -/
structure MetricsRow where
  meanCPU : ℚ
  maxCPU : ℚ
  meanReadIOPS : ℚ
  meanWriteIOPS : ℚ
deriving DecidableEq

def listMean (l : List ℚ) : ℚ := l.sum / l.length

def listMax : List ℚ → ℚ
  | [] => 0
  | x :: xs => xs.foldl max x

/-- Embedding of the metric-collection loop body (lines 362-390): CPU
mean/max come from the CPUUtilization series when nonempty and are 0
otherwise; Read/Write IOPS means are only sampled for engines outside the
serverless-native family and default to 0 on an empty series. -/
def collect_metrics (engine : String) (t : Telemetry) : MetricsRow :=
  let cpuPair : ℚ × ℚ :=
    if t.cpuMax.isEmpty then (0, 0) else (listMean t.cpuMax, listMax t.cpuMax)
  if engine ∈ serverlessNativeEngines then
    { meanCPU := cpuPair.1, maxCPU := cpuPair.2, meanReadIOPS := 0, meanWriteIOPS := 0 }
  else
    { meanCPU := cpuPair.1, maxCPU := cpuPair.2
      meanReadIOPS := if t.readMax.isEmpty then 0 else listMean t.readMax
      meanWriteIOPS := if t.writeMax.isEmpty then 0 else listMean t.writeMax }

/-! ## Cost projection (lines 395-436) -/

/-- acu_usage (lines 397-398): floor the headroom-adjusted ACU demand,
then add a half unit. -/
def acu_usage (meanCPU vcpu : ℚ) : ℚ :=
  (⌊meanCPU * HEADROOM_MULTIPLIER * vcpu * ACU_PER_VCPU / 100⌋ : ℤ) + 1 / 2

/-- The IOPS column (line 399): headroom-adjusted sum of the mean
read and write operation rates. -/
def IOPS (meanReadIOPS meanWriteIOPS : ℚ) : ℚ :=
  (meanReadIOPS + meanWriteIOPS) * HEADROOM_MULTIPLIER

/-- multi_az_multiplier (line 404). -/
def multi_az_multiplier (deploymentOption : String) : ℚ :=
  if deploymentOption = "Multi-AZ" then 2 else 1

/-- aurora_standard_monthly (lines 408-412). -/
def aurora_standard_monthly (usage iopsRate storage_gb : ℚ) (deploymentOption : String)
    (p : PricingConfig) : ℚ :=
  usage * p.acu * HOURS_PER_MONTH * multi_az_multiplier deploymentOption
    + (iopsRate * SECONDS_PER_MONTH) * p.iops + storage_gb * p.storage

/-- aurora_io_optimized_monthly (lines 415-418): no IOPS cost term. -/
def aurora_io_optimized_monthly (usage storage_gb : ℚ) (deploymentOption : String)
    (p : PricingConfig) : ℚ :=
  usage * p.acu * HOURS_PER_MONTH * multi_az_multiplier deploymentOption
    + storage_gb * p.storage

/-- aurora_savings_plan_monthly (lines 421-425). -/
def aurora_savings_plan_monthly (usage iopsRate storage_gb : ℚ) (deploymentOption : String)
    (p : PricingConfig) : ℚ :=
  usage * p.acu * HOURS_PER_MONTH * multi_az_multiplier deploymentOption
    + (iopsRate * SECONDS_PER_MONTH) * p.iops + storage_gb * p.storage

/-- best_option (lines 433-435): pandas idxmin over the columns in order
standard, io_optimized, savings_plan returns the first column attaining
the minimum; the column label is then stripped to the variant name. -/
def best_option (std io sp : ℚ) : String :=
  if std ≤ io ∧ std ≤ sp then "standard"
  else if io ≤ sp then "io_optimized"
  else "savings_plan"

/-- The monthly cost named by a best_option label. -/
def variant_cost (std io sp : ℚ) (label : String) : ℚ :=
  if label = "standard" then std else if label = "io_optimized" then io else sp

/-- max_savings (line 436): row-wise maximum of the three savings columns
(lines 428-430), each of which is pricePerMonth minus a variant cost. -/
def max_savings (pricePerMonth std io sp : ℚ) : ℚ :=
  max (pricePerMonth - std) (max (pricePerMonth - io) (pricePerMonth - sp))

/-! ## Current-instance price lookup (lines 324-355) -/

/-- The fields written into the dataframe for one instance by the
instance-pricing loop (lines 344-355). -/
structure InstancePriceRow where
  pricePerUnit : ℚ
  deploymentOption : String
  vcpu : ℚ
  memory : ℚ
  pricePerMonth : ℚ
deriving DecidableEq

/-- The relevant fields of a successful get_rds_instance_hourly_price
result (lines 180-187). -/
structure InstancePriceInfo where
  pricePerUnit : ℚ
  deploymentOption : String
  vcpu : ℚ
  memory : ℚ

/-- deployment_option (lines 332-333): Multi-AZ exactly when the
SecondaryAvailabilityZone field is present and nonempty. -/
def deployment_option (secondaryAZ : Option String) : String :=
  match secondaryAZ with
  | none => "Single-AZ"
  | some s => if s = "" then "Single-AZ" else "Multi-AZ"

/-- Embedding of the per-instance pricing-lookup step (lines 336-355):
a successful lookup fills the row from the price record and derives
pricePerMonth; an exception (`none`) is caught and the row is filled with
zeros, keeping the locally computed deployment option. -/
def set_instance_price (secondaryAZ : Option String)
    (lookup : Option InstancePriceInfo) : InstancePriceRow :=
  match lookup with
  | some info =>
      { pricePerUnit := info.pricePerUnit, deploymentOption := info.deploymentOption
        vcpu := info.vcpu, memory := info.memory
        pricePerMonth := info.pricePerUnit * HOURS_PER_MONTH }
  | none =>
      { pricePerUnit := 0, deploymentOption := deployment_option secondaryAZ
        vcpu := 0, memory := 0, pricePerMonth := 0 }

/-! ## Multi-region combination (process_region lines 273-442, main lines 444-464) -/

/-- Embedding of process_region's outermost try/except (lines 285, 440-442):
the body either produces the region's rows or raises, and any exception is
caught and turned into an empty result. -/
def process_region_rows {α : Type} : Except String (List α) → List α
  | Except.error _ => []
  | Except.ok rows => rows

/-- Embedding of main's combination loop (lines 453-464): each region's
rows are appended in order (an empty region is skipped, which leaves the
concatenation unchanged). -/
def combine_regions {α : Type} (regions : List (Except String (List α))) : List α :=
  (regions.map process_region_rows).flatten

/-! ## Version-compatibility flags (create_instance_dataframe lines 235-255) -/

/-- Python's str.split on the dot separator, on the character list of the
string (empty string gives one empty field, a trailing dot gives a
trailing empty field, as in Python). -/
def splitOnDot : List Char → List (List Char)
  | [] => [[]]
  | c :: cs =>
      let rest := splitOnDot cs
      if c = '.' then [] :: rest
      else (c :: rest.headD []) :: rest.tailD []

/-- Python's int() on a version component, restricted to the unsigned
ASCII-decimal forms engine versions take; anything int() would reject
(empty or non-digit) is `none`, the raising case. -/
def charsToNat? (cs : List Char) : Option Nat :=
  if cs ≠ [] ∧ cs.all Char.isDigit then
    some (cs.foldl (fun n c => 10 * n + (c.toNat - 48)) 0)
  else none

/-- Python's sep.join for the dot separator. -/
def joinDot : List (List Char) → List Char
  | [] => []
  | [x] => x
  | x :: xs => x ++ '.' :: joinDot xs

/-- Embedding of the NeedsUpgrade / ExtendedSupport computation
(lines 235-255). For aurora-postgresql the source parses the major
version with int(), which raises on a non-numeric component: that case is
`none`. Note the minimum-version check on line 249 is a Python STRING
comparison between major_minor and the dict entry — embedded here as
lexicographic order on the character lists, which coincides with Python's
code-point string order. Returns (NeedsUpgrade, ExtendedSupport). -/
def version_flags (engine version : String) : Option (Bool × Bool) :=
  if engine = "aurora-mysql" then
    some (!(AURORA_MYSQL_MIN_VERSION.toList.isPrefixOf version.toList),
          AURORA_MYSQL_EXTENDED_SUPPORT.toList.isPrefixOf version.toList)
  else if engine = "aurora-postgresql" then
    match charsToNat? ((splitOnDot version.toList).headD []) with
    | none => none
    | some major =>
        let major_minor := joinDot ((splitOnDot version.toList).take 2)
        let needs_upgrade :=
          match AURORA_POSTGRESQL_MIN_VERSIONS.lookup (toString major) with
          | some minVersion => decide (major_minor < minVersion.toList)
          | none => true
        some (needs_upgrade, decide (major ∈ AURORA_POSTGRESQL_EXTENDED_SUPPORT))
  else
    some (false, false)

/-- Modelled from the claim's words (C10): for aurora-postgresql,
NeedsUpgrade should hold exactly when the major version is outside
{13, 14, 15} or the numeric (major, minor) pair is below the fixed
minimum for that major (13.6, 14.3, 15.2). -/
def claimNeedsUpgradePG (major minor : Nat) : Bool :=
  if major = 13 then minor < 6
  else if major = 14 then minor < 3
  else if major = 15 then minor < 2
  else true

/-! ## Helper lemmas -/

lemma variant_cost_standard (std io sp : ℚ) : variant_cost std io sp "standard" = std := by
  unfold variant_cost
  rw [if_pos rfl]

lemma variant_cost_io (std io sp : ℚ) : variant_cost std io sp "io_optimized" = io := by
  unfold variant_cost
  rw [if_neg (by decide), if_pos rfl]

lemma variant_cost_sp (std io sp : ℚ) : variant_cost std io sp "savings_plan" = sp := by
  unfold variant_cost
  rw [if_neg (by decide), if_neg (by decide)]

lemma multi_az_multiplier_multi : multi_az_multiplier "Multi-AZ" = 2 := by
  unfold multi_az_multiplier
  rw [if_pos rfl]

lemma multi_az_multiplier_single : multi_az_multiplier "Single-AZ" = 1 := by
  unfold multi_az_multiplier
  rw [if_neg (by decide)]

lemma best_option_cost_eq_min (std io sp : ℚ) :
    variant_cost std io sp (best_option std io sp) = min std (min io sp) := by
  by_cases hA : std ≤ io ∧ std ≤ sp
  · have hbo : best_option std io sp = "standard" := by
      unfold best_option
      rw [if_pos hA]
    rw [hbo, variant_cost_standard, min_eq_left (le_min hA.1 hA.2)]
  · by_cases hB : io ≤ sp
    · have hbo : best_option std io sp = "io_optimized" := by
        unfold best_option
        rw [if_neg hA, if_pos hB]
      have hlt : io < std := by
        rcases not_and_or.mp hA with h | h
        · exact lt_of_not_le h
        · exact lt_of_le_of_lt hB (lt_of_not_le h)
      rw [hbo, variant_cost_io, min_eq_left hB, min_eq_right hlt.le]
    · have hbo : best_option std io sp = "savings_plan" := by
        unfold best_option
        rw [if_neg hA, if_neg hB]
      have hsp : sp < io := lt_of_not_le hB
      have hlt : sp < std := by
        rcases not_and_or.mp hA with h | h
        · exact lt_of_lt_of_le hsp (le_of_lt (lt_of_not_le h))
        · exact lt_of_not_le h
      rw [hbo, variant_cost_sp, min_eq_right hsp.le, min_eq_right hlt.le]

/-! ## Claims -/

/-- C1: for every instance the projected consumption-unit usage rate is
floor(meanCPU * 1.5 * vcpu * 4 / 100) + 0.5; with meanCPU = 0 it is
exactly 0.5, and with meanCPU = 66.67 and vcpu = 2 it is 8.5. -/
theorem C1_usage_rate (meanCPU vcpu : ℚ) :
    acu_usage meanCPU vcpu = (⌊meanCPU * (3 / 2) * vcpu * 4 / 100⌋ : ℤ) + 1 / 2
    ∧ acu_usage 0 vcpu = 1 / 2
    ∧ acu_usage (66.67 : ℚ) 2 = (8.5 : ℚ) := by
  refine ⟨rfl, ?_, ?_⟩
  · simp [acu_usage]
  · norm_num [acu_usage, HEADROOM_MULTIPLIER, ACU_PER_VCPU]

/-- C2: best_option is one of the labels standard, io_optimized,
savings_plan; it names a variant of minimum monthly cost; and a
later-listed variant is selected only when it is strictly cheaper than
every earlier-listed one, so ties go to the first-listed variant in the
order standard, io_optimized, savings_plan. -/
theorem C2_best_option (std io sp : ℚ) :
    best_option std io sp ∈ (["standard", "io_optimized", "savings_plan"] : List String)
    ∧ variant_cost std io sp (best_option std io sp) = min std (min io sp)
    ∧ (best_option std io sp = "io_optimized" → io < std ∧ io ≤ sp)
    ∧ (best_option std io sp = "savings_plan" → sp < std ∧ sp < io) := by
  refine ⟨?_, best_option_cost_eq_min std io sp, ?_, ?_⟩
  · unfold best_option
    split_ifs <;> simp
  · intro h
    unfold best_option at h
    split_ifs at h with hA hB
    · simp at h
    · constructor
      · rcases not_and_or.mp hA with hs | hs
        · exact lt_of_not_le hs
        · exact lt_of_le_of_lt hB (lt_of_not_le hs)
      · exact hB
    · simp at h
  · intro h
    unfold best_option at h
    split_ifs at h with hA hB
    · simp at h
    · simp at h
    · have hsp : sp < io := lt_of_not_le hB
      refine ⟨?_, hsp⟩
      rcases not_and_or.mp hA with hs | hs
      · exact lt_of_lt_of_le hsp (le_of_lt (lt_of_not_le hs))
      · exact lt_of_not_le hs

/-- Witness for C2: at costs (5, 3, 4) the io_optimized variant is
selected and is strictly cheaper than standard; at costs (5, 3, 2) the
savings_plan variant is selected and is strictly cheaper than both. -/
theorem C2_best_option_witness :
    ((3 : ℚ) < 5 ∧ (3 : ℚ) ≤ 4) ∧ ((2 : ℚ) < 5 ∧ (2 : ℚ) < 3) :=
  ⟨(C2_best_option 5 3 4).2.2.1 (by decide),
   (C2_best_option 5 3 2).2.2.2 (by decide)⟩

/-- C3: the savings-plan consumption-unit price returned by
get_aurora_serverless_pricing is exactly 0.65 times the standard
consumption-unit price it returns, for every storage type and every
outcome of the three catalog queries (it is derived locally from the
standard price, not by a further query). -/
theorem C3_savings_plan_price (st : StorageType) (sq iq aq : Option ℚ) :
    (get_aurora_serverless_pricing st sq iq aq).2.2.1
      = (65 / 100) * (get_aurora_serverless_pricing st sq iq aq).1 := by
  cases aq with
  | none => simp [get_aurora_serverless_pricing]
  | some price_acu =>
      simp only [get_aurora_serverless_pricing, SAVINGS_PLAN_DISCOUNT]
      ring

/-- C4: an instance whose telemetry queries return no datapoints gets
meanCPU = 0, maxCPU = 0, meanReadIOPS = 0, meanWriteIOPS = 0 (the
metric-collection step is total, so no error is raised), hence usage rate
0.5 and IOPS rate 0, for every engine and vcpu count. -/
theorem C4_missing_telemetry (engine : String) (vcpu : ℚ) :
    (collect_metrics engine ⟨[], [], []⟩).meanCPU = 0
    ∧ (collect_metrics engine ⟨[], [], []⟩).maxCPU = 0
    ∧ (collect_metrics engine ⟨[], [], []⟩).meanReadIOPS = 0
    ∧ (collect_metrics engine ⟨[], [], []⟩).meanWriteIOPS = 0
    ∧ acu_usage (collect_metrics engine ⟨[], [], []⟩).meanCPU vcpu = 1 / 2
    ∧ IOPS (collect_metrics engine ⟨[], [], []⟩).meanReadIOPS
        (collect_metrics engine ⟨[], [], []⟩).meanWriteIOPS = 0 := by
  by_cases h : engine ∈ serverlessNativeEngines <;>
    simp [collect_metrics, h, acu_usage, IOPS, HEADROOM_MULTIPLIER, ACU_PER_VCPU]

/-- C5: under each of the three pricing variants, the Multi-AZ monthly
cost exceeds the Single-AZ monthly cost of an otherwise identical
instance by exactly the single-zone acu_cost term
usage * acu_price * 730 (the iops_cost and storage_cost terms do not
depend on the deployment option). -/
theorem C5_multi_az_cost (usage iopsRate storage_gb : ℚ) (pStd pIo pSp : PricingConfig) :
    aurora_standard_monthly usage iopsRate storage_gb "Multi-AZ" pStd
      = aurora_standard_monthly usage iopsRate storage_gb "Single-AZ" pStd
        + usage * pStd.acu * HOURS_PER_MONTH
    ∧ aurora_io_optimized_monthly usage storage_gb "Multi-AZ" pIo
      = aurora_io_optimized_monthly usage storage_gb "Single-AZ" pIo
        + usage * pIo.acu * HOURS_PER_MONTH
    ∧ aurora_savings_plan_monthly usage iopsRate storage_gb "Multi-AZ" pSp
      = aurora_savings_plan_monthly usage iopsRate storage_gb "Single-AZ" pSp
        + usage * pSp.acu * HOURS_PER_MONTH := by
  refine ⟨?_, ?_, ?_⟩ <;>
    simp only [aurora_standard_monthly, aurora_io_optimized_monthly,
      aurora_savings_plan_monthly, multi_az_multiplier_multi,
      multi_az_multiplier_single] <;>
    ring

/-- C6: the IOPS rate of a serverless-native-engine instance is 0
whatever its telemetry; for any other engine it is the headroom-adjusted
sum of the mean read and write operation rates computed from the sampled
series. -/
theorem C6_io_rate (engine : String) (t : Telemetry) :
    IOPS (collect_metrics engine t).meanReadIOPS (collect_metrics engine t).meanWriteIOPS
      = if engine ∈ serverlessNativeEngines then 0
        else ((if t.readMax.isEmpty then 0 else listMean t.readMax)
            + (if t.writeMax.isEmpty then 0 else listMean t.writeMax))
          * HEADROOM_MULTIPLIER := by
  by_cases h : engine ∈ serverlessNativeEngines <;>
    simp [collect_metrics, IOPS, h, HEADROOM_MULTIPLIER]

/-- C7: in multi-region mode a region whose processing raises contributes
no rows to the combined output, and the rows of the regions before and
after it are exactly preserved. -/
theorem C7_region_isolation {α : Type} (xs ys : List (Except String (List α))) (e : String) :
    combine_regions (xs ++ Except.error e :: ys) = combine_regions xs ++ combine_regions ys
    ∧ process_region_rows (Except.error e : Except String (List α)) = [] := by
  refine ⟨?_, rfl⟩
  simp [combine_regions, process_region_rows]

/-- C8: a failed current-instance price lookup is replaced by a row of
zeros that keeps the locally computed deployment option, and a
consumption-unit catalog query with no matching entry (or a raising one)
yields zero for all four returned price components; neither aborts. -/
theorem C8_lookup_fallback (secondaryAZ : Option String) (st : StorageType) (sq iq : Option ℚ) :
    set_instance_price secondaryAZ none
      = { pricePerUnit := 0, deploymentOption := deployment_option secondaryAZ,
          vcpu := 0, memory := 0, pricePerMonth := 0 }
    ∧ get_aurora_serverless_pricing st sq iq none = (0, 0, 0, 0) :=
  ⟨rfl, rfl⟩

/-- C9: max_savings is the maximum over the three variants of
current monthly cost minus that variant's cost, it equals current monthly
cost minus the minimum variant cost, and it equals the savings of the
variant named by best_option. -/
theorem C9_max_savings (price std io sp : ℚ) :
    max_savings price std io sp = price - min std (min io sp)
    ∧ max_savings price std io sp
      = price - variant_cost std io sp (best_option std io sp) := by
  have h1 : max_savings price std io sp = price - min std (min io sp) := by
    unfold max_savings
    rw [max_sub_sub_left, max_sub_sub_left]
  exact ⟨h1, by rw [h1, best_option_cost_eq_min]⟩

/-- C10: the claim fails on the code. For an aurora-postgresql instance
with EngineVersion "13.10" the source computes NeedsUpgrade = true,
because line 249 compares the strings lexicographically and
"13.10" < "13.6" in code-point order; numerically 13.10 is at or above
the stated 13.6 minimum, so the claim says NeedsUpgrade should be false
(claimNeedsUpgradePG 13 10 = false). -/
theorem C10_version_flag_bug :
    version_flags "aurora-postgresql" "13.10" = some (true, true)
    ∧ claimNeedsUpgradePG 13 10 = false := by
  decide

end AuroraCalc
